import Mathlib

/-!
Shallow embedding of the OpenAL output subsystem of
`apps/openmw/mwsound/openal_output.cpp`: format negotiation
(`getALFormat`), the streaming sound state machine
(`OpenAL_SoundStream::play/stop/isPlaying/process`), voice-pool
initialisation (`OpenAL_Output::init`), the voice-pool handling on the
`streamSound` failure path, and the coordinate remap applied at every
position/orientation device call.

Device-side effects (OpenAL calls) are modelled by explicit state: a
source carries a hardware play state and an ordered queue of buffer ids;
`alSourceUnqueueBuffers` pops from the front, `alSourceQueueBuffers`
appends at the back.  The decoder collaborator is modelled as a byte
stream with a read position (`read` returns up to the requested number
of bytes and advances; `rewind` resets the position).
-/

namespace OpenMW

/-- Modelled from the spec: the decoder channel-layout enumeration from
`sound_decoder.hpp` (not under `src/`); the spec names exactly the mono
and stereo layouts. -/
inductive ChannelConfig where
  | mono
  | stereo
deriving DecidableEq, BEq

/-- Modelled from the spec: the decoder sample-type enumeration from
`sound_decoder.hpp` (not under `src/`); the spec names exactly the
8-bit-unsigned and 16-bit-signed sample types. -/
inductive SampleType where
  | uint8
  | int16
deriving DecidableEq, BEq

/-- The native OpenAL buffer formats appearing in `getALFormat`'s table. -/
inductive ALFormat where
  | mono8
  | mono16
  | stereo8
  | stereo16
deriving DecidableEq, BEq

/-- Modelled from the spec: `getChannelConfigName` (declared in
`sound_decoder.hpp`, definition not under `src/`) — a human-readable
name per channel layout. -/
def getChannelConfigName : ChannelConfig → String
  | ChannelConfig.mono => "Mono"
  | ChannelConfig.stereo => "Stereo"

/-- Modelled from the spec: `getSampleTypeName` (declared in
`sound_decoder.hpp`, definition not under `src/`) — a human-readable
name per sample type. -/
def getSampleTypeName : SampleType → String
  | SampleType.uint8 => "8-bit Unsigned"
  | SampleType.int16 => "16-bit Signed"

/-- The static format table of `getALFormat`
(openal_output.cpp:37-46): entries are (format, chans, type). -/
def fmtlist : List (ALFormat × ChannelConfig × SampleType) :=
  [(ALFormat.mono16, ChannelConfig.mono, SampleType.int16),
   (ALFormat.mono8, ChannelConfig.mono, SampleType.uint8),
   (ALFormat.stereo16, ChannelConfig.stereo, SampleType.int16),
   (ALFormat.stereo8, ChannelConfig.stereo, SampleType.uint8)]

/-- `getALFormat` (openal_output.cpp:35-56): scan the table for a
matching (chans, type) pair; on fall-through, fail with a message that
names the requested channel layout and sample type. -/
def getALFormat (chans : ChannelConfig) (type : SampleType) : Except String ALFormat :=
  match fmtlist.find? (fun e => e.2.1 == chans && e.2.2 == type) with
  | some e => Except.ok e.1
  | Option.none =>
      Except.error ("Unsupported sound format (" ++ getChannelConfigName chans ++ ", "
        ++ getSampleTypeName type ++ ")")

/-- The format the spec's table in §4.2 promises for each supported
(channel, sample-type) pair, written from the spec's words. -/
def specFormat : ChannelConfig → SampleType → ALFormat
  | ChannelConfig.mono, SampleType.uint8 => ALFormat.mono8
  | ChannelConfig.mono, SampleType.int16 => ALFormat.mono16
  | ChannelConfig.stereo, SampleType.uint8 => ALFormat.stereo8
  | ChannelConfig.stereo, SampleType.int16 => ALFormat.stereo16

/-- The decoder collaborator: a byte stream (`data`) with a current read
position.  `read` returns up to the requested number of bytes starting
at `pos` and advances `pos` by the number actually returned; `rewind`
resets `pos` to the start. -/
structure Decoder where
  data : List Nat
  pos : Nat
deriving DecidableEq

def Decoder.read (d : Decoder) (maxBytes : Nat) : List Nat × Decoder :=
  let got := (d.data.drop d.pos).take maxBytes
  (got, { data := d.data, pos := d.pos + got.length })

def Decoder.rewind (d : Decoder) : Decoder :=
  { data := d.data, pos := 0 }

/-- An OpenAL source play state (`AL_SOURCE_STATE`). -/
inductive ALState where
  | initial
  | playing
  | paused
  | stopped
deriving DecidableEq, BEq

/-- The state of one `OpenAL_SoundStream` together with its device-side
source: `playState` and `queued` model the OpenAL source (queue front =
oldest buffer), `bufData` the contents last loaded into each of the six
buffers (indexed by buffer id), `isFinished` the `mIsFinished` member,
`dec` the held decoder, `bufferSize` the `mBufferSize` member.  `reads`
counts the decoder `read` calls issued, to observe when reads happen. -/
structure StreamState where
  playState : ALState
  queued : List Nat
  bufData : Nat → List Nat
  isFinished : Bool
  dec : Decoder
  bufferSize : Nat
  reads : Nat

namespace OpenAL_SoundStream

/-- One iteration of the `processed > 0` loop in
`OpenAL_SoundStream::process` (openal_output.cpp:263-280): unqueue the
oldest buffer; if `mIsFinished`, skip the refill (`continue`), leaving
the buffer unqueued; otherwise read one buffer's worth from the decoder,
set `mIsFinished` when the read is short, and re-queue the buffer with
the new data when the read is non-empty. -/
def processStep (s : StreamState) : StreamState :=
  match s.queued with
  | [] => s
  | bufid :: rest =>
    if s.isFinished then { s with queued := rest }
    else
      let r := s.dec.read s.bufferSize
      if r.1.length > 0 then
        { s with queued := rest ++ [bufid],
                 bufData := fun j => if j = bufid then r.1 else s.bufData j,
                 dec := r.2,
                 isFinished := decide (r.1.length < s.bufferSize),
                 reads := s.reads + 1 }
      else
        { s with queued := rest,
                 dec := r.2,
                 isFinished := decide (r.1.length < s.bufferSize),
                 reads := s.reads + 1 }

/-- The `processed > 0` loop run for the device-reported number of
finished buffers. -/
def processLoop : Nat → StreamState → StreamState
  | 0, s => s
  | n + 1, s => processLoop n (processStep s)

/-- `OpenAL_SoundStream::process` (openal_output.cpp:252-298).  `processed`
is the device-reported `AL_BUFFERS_PROCESSED` count; the play state is
captured before the loop, as in the source.  After the loop, if the
captured state is neither playing nor paused and buffers remain queued,
playback is restarted (`alSourcePlay`).  Returns `!mIsFinished` and the
new state. -/
def process (s : StreamState) (processed : Nat) : Bool × StreamState :=
  let state := s.playState
  let s1 := processLoop processed s
  let s2 :=
    if state ≠ ALState.playing ∧ state ≠ ALState.paused then
      if s1.queued.length > 0 then { s1 with playState := ALState.playing } else s1
    else s1
  (!s2.isFinished, s2)

/-- A sequence of `process` calls, one per device-reported processed
count in the list. -/
def processSeq (s : StreamState) : List Nat → StreamState
  | [] => s
  | n :: ns => processSeq (process s n).2 ns

/-- The buffer-fill loop of `OpenAL_SoundStream::play`
(openal_output.cpp:204-209): for each buffer id in order, read one
buffer's worth from the decoder and load it into that buffer
(`alBufferData`). -/
def fillBufs : List Nat → StreamState → StreamState
  | [], s => s
  | i :: rest, s =>
    let r := s.dec.read s.bufferSize
    fillBufs rest
      { s with dec := r.2,
               bufData := fun j => if j = i then r.1 else s.bufData j,
               reads := s.reads + 1 }

/-- `OpenAL_SoundStream::play` (openal_output.cpp:196-218): stop the
source and clear its queue, fill all six buffers from the decoder's
current position, queue them all, start playback, clear `mIsFinished`. -/
def play (s : StreamState) : StreamState :=
  let s0 := { s with playState := ALState.stopped, queued := [] }
  let s1 := fillBufs [0, 1, 2, 3, 4, 5] s0
  { s1 with queued := [0, 1, 2, 3, 4, 5],
            playState := ALState.playing,
            isFinished := false }

/-- `OpenAL_SoundStream::stop` (openal_output.cpp:220-230): set
`mIsFinished`, stop the source, clear its queue, rewind the decoder. -/
def stop (s : StreamState) : StreamState :=
  { s with isFinished := true,
           playState := ALState.stopped,
           queued := [],
           dec := s.dec.rewind }

/-- `OpenAL_SoundStream::isPlaying` (openal_output.cpp:232-242): true
when the source reports `AL_PLAYING`, else `!mIsFinished`. -/
def isPlaying (s : StreamState) : Bool :=
  if s.playState = ALState.playing then true else !s.isFinished

end OpenAL_SoundStream

namespace OpenAL_Output

/-- The source-generation loop of `OpenAL_Output::init`
(openal_output.cpp:410-420): for call indices `i, i+1, ...` and up to
`n` attempts, `gen` models `alGenSources` (the handle created, or
`none` when the call reports an error); on the first failure the pool
is truncated to the sources created so far (`mFreeSources.resize(i)`)
and the loop stops. -/
def genSources (gen : Nat → Option Nat) : Nat → Nat → List Nat
  | _, 0 => []
  | i, n + 1 =>
    match gen i with
    | Option.none => []
    | some src => src :: genSources gen (i + 1) n

/-- The voice-pool population of `OpenAL_Output::init`
(openal_output.cpp:404-423): the pool size is
`min(maxmono + maxstereo, 256)`; sources are generated until the first
failure; if no source at all could be created, fail with
"Could not allocate any sources". -/
def init (gen : Nat → Option Nat) (maxmono maxstereo : Nat) : Except String (List Nat) :=
  let count := min (maxmono + maxstereo) 256
  let srcs := genSources gen 0 count
  if srcs.length = 0 then Except.error "Could not allocate any sources"
  else Except.ok srcs

/-- The body of the `try` block of the `OpenAL_SoundStream` constructor
(openal_output.cpp:154-181) as it acts on the free-source pool: the
steps before the `try` (`alGenBuffers` + error check) do not touch the
pool on failure; failures inside the `try` (`getInfo`, `getALFormat`)
are caught, `mSource` is pushed back onto `mFreeSources`, and the
exception is rethrown.  Returns the pool after the constructor and the
error message when construction failed. -/
def soundStreamCtor (pool : List Nat) (src : Nat) (genBuffersFails getInfoFails : Bool)
    (chans : ChannelConfig) (type : SampleType) : List Nat × Option String :=
  if genBuffersFails then (pool, some "buffer generation failed")
  else if getInfoFails then (pool ++ [src], some "getInfo failed")
  else
    match getALFormat chans type with
    | Except.error e => (pool ++ [src], some e)
    | Except.ok _ => (pool, Option.none)

/-- `OpenAL_Output::streamSound` (openal_output.cpp:552-593) as it acts
on the free-source pool: take the last free source
(`mFreeSources.back()` + `pop_back()`); on any exception from
`decoder->open` or the `OpenAL_SoundStream` constructor, the `catch`
pushes `src` back onto `mFreeSources` and rethrows.  Returns the pool
after the call and the outcome. -/
def streamSound (pool : List Nat) (openFails genBuffersFails getInfoFails : Bool)
    (chans : ChannelConfig) (type : SampleType) : List Nat × Except String Unit :=
  match pool.getLast? with
  | Option.none => (pool, Except.error "No free sources")
  | some src =>
    let pool1 := pool.dropLast
    if openFails then (pool1 ++ [src], Except.error "open failed")
    else
      let r := soundStreamCtor pool1 src genBuffersFails getInfoFails chans type
      match r.2 with
      | some e => (r.1 ++ [src], Except.error e)
      | Option.none => (r.1, Except.ok ())

end OpenAL_Output

/-- The axis remap the spec states in §4.3: engine world coordinates
(x, y, z) map to device coordinates (x, z, −y).  Written from the
spec's words, to be compared with each call site. -/
def specRemap (v : Int × Int × Int) : Int × Int × Int :=
  (v.1, v.2.2, -v.2.1)

/-- The `AL_POSITION` argument of `OpenAL_SoundStream::update`
(openal_output.cpp:246): `pos[0], pos[2], -pos[1]`. -/
def streamUpdateDevicePos (pos : Int × Int × Int) : Int × Int × Int :=
  (pos.1, pos.2.2, -pos.2.1)

/-- The `AL_POSITION` argument of `OpenAL_Sound::update`
(openal_output.cpp:377): `pos[0], pos[2], -pos[1]`. -/
def soundUpdateDevicePos (pos : Int × Int × Int) : Int × Int × Int :=
  (pos.1, pos.2.2, -pos.2.1)

/-- The `AL_POSITION` argument of `OpenAL_Output::playSound3D`
(openal_output.cpp:529): `pos[0], pos[2], -pos[1]`. -/
def playSound3DDevicePos (pos : Int × Int × Int) : Int × Int × Int :=
  (pos.1, pos.2.2, -pos.2.1)

/-- The `AL_POSITION` argument of `OpenAL_Output::streamSound3D`
(openal_output.cpp:620): `pos[0], pos[2], -pos[1]`. -/
def streamSound3DDevicePos (pos : Int × Int × Int) : Int × Int × Int :=
  (pos.1, pos.2.2, -pos.2.1)

/-- The `AL_POSITION` argument of `OpenAL_Output::updateListener`
(openal_output.cpp:647): `pos[0], pos[2], -pos[1]`. -/
def listenerDevicePos (pos : Int × Int × Int) : Int × Int × Int :=
  (pos.1, pos.2.2, -pos.2.1)

/-- The `AL_ORIENTATION` array of `OpenAL_Output::updateListener`
(openal_output.cpp:642-645): the remapped facing vector followed by the
remapped up vector. -/
def listenerDeviceOrient (atdir updir : Int × Int × Int) : List Int :=
  [atdir.1, atdir.2.2, -atdir.2.1, updir.1, updir.2.2, -updir.2.1]

/-- A stream that has entered `Finishing` (decoder exhausted) while two
buffers are still queued on the source for drain-down. -/
def finishingDrainState : StreamState :=
  { playState := ALState.playing
    queued := [0, 1]
    bufData := fun _ => []
    isFinished := true
    dec := { data := [], pos := 0 }
    bufferSize := 4
    reads := 0 }

/-!  Theorems, one per claim. -/

/-- C6: `getALFormat` returns a native device format for each of the 4
supported (channel layout, sample type) pairs — which, in this
revision's decoder interface, are all the pairs there are, so every
other pair is rejected vacuously — and the format returned is the one
the spec's table promises. -/
theorem getALFormat_total_on_supported :
    ∀ (c : ChannelConfig) (t : SampleType), getALFormat c t = Except.ok (specFormat c t) := by
  intro c t
  cases c <;> cases t <;> rfl

/-- C8: every position/orientation device call — streaming-sound
update, one-shot update, the two 3D playback starts, and the listener
update — maps engine world coordinates (x, y, z) to device coordinates
(x, z, −y); in particular (1, 2, 3) is passed to the device as
(1, 3, −2). -/
theorem devicePos_remap_consistent :
    (∀ x y z : Int,
      streamUpdateDevicePos (x, y, z) = specRemap (x, y, z) ∧
      soundUpdateDevicePos (x, y, z) = specRemap (x, y, z) ∧
      playSound3DDevicePos (x, y, z) = specRemap (x, y, z) ∧
      streamSound3DDevicePos (x, y, z) = specRemap (x, y, z) ∧
      listenerDevicePos (x, y, z) = specRemap (x, y, z) ∧
      specRemap (x, y, z) = (x, z, -y)) ∧
    (∀ a u : Int × Int × Int,
      listenerDeviceOrient a u =
        [(specRemap a).1, (specRemap a).2.1, (specRemap a).2.2,
         (specRemap u).1, (specRemap u).2.1, (specRemap u).2.2]) ∧
    listenerDevicePos (1, 2, 3) = (1, 3, -2) := by
  refine ⟨fun x y z => ⟨rfl, rfl, rfl, rfl, rfl, rfl⟩, fun a u => rfl, rfl⟩

/-- C9: a streaming sound's `isPlaying` is true exactly when the
hardware reports active playback or the internal not-yet-finished flag
is still set; and after `play()` the sound reports playing whatever the
hardware play state is (the flag was just cleared). -/
theorem isPlaying_iff_hw_or_unfinished :
    (∀ s : StreamState,
      OpenAL_SoundStream.isPlaying s = true ↔
        (s.playState = ALState.playing ∨ s.isFinished = false)) ∧
    (∀ (s : StreamState) (st : ALState),
      OpenAL_SoundStream.isPlaying { OpenAL_SoundStream.play s with playState := st } = true) := by
  constructor
  · intro s
    simp only [OpenAL_SoundStream.isPlaying]
    split
    · simp [*]
    · simp [*]
  · intro s st
    simp [OpenAL_SoundStream.isPlaying, OpenAL_SoundStream.play]

/-- C1 (amended): `process()` returns true exactly when the sound has
not entered the `Finishing` state by the end of the call — the return
value is the negation of `mIsFinished`, independent of how many buffers
remain queued. -/
theorem process_returns_not_finished :
    ∀ (s : StreamState) (processed : Nat),
      (OpenAL_SoundStream.process s processed).1 =
        !(OpenAL_SoundStream.process s processed).2.isFinished := by
  intro s processed
  simp only [OpenAL_SoundStream.process]

/-- C1 counterexample: a stream that is in `Finishing` while buffers
are still queued for drain-down, on which `process()` returns false —
the claim says it should still return true while buffers remain
queued. -/
theorem process_false_while_draining :
    finishingDrainState.isFinished = true ∧
    finishingDrainState.queued ≠ [] ∧
    (OpenAL_SoundStream.process finishingDrainState 0).1 = false := by
  refine ⟨rfl, by decide, rfl⟩

/-- C2: evaluating `streamSound` at the failing input — pool `[7]`,
decoder `open` succeeds, the `OpenAL_SoundStream` constructor fails
inside its `try` block (`getInfo` throws).  The constructor's `catch`
pushes source 7 back onto the pool and rethrows, and `streamSound`'s
`catch` pushes it back again: the voice handle reappears in the free
pool twice, not exactly once as the claim requires. -/
theorem streamSound_double_release :
    (OpenAL_Output.streamSound [7] false false true ChannelConfig.mono SampleType.int16).1
      = [7, 7] ∧
    ((OpenAL_Output.streamSound [7] false false true
        ChannelConfig.mono SampleType.int16).1.count 7 = 2) ∧
    (OpenAL_Output.streamSound [7] false false true
        ChannelConfig.mono SampleType.int16).2.isOk = false := by
  refine ⟨rfl, rfl, rfl⟩

/-- A stream that has entered `Finishing` while three buffers are still
queued, used to exercise the drain-down claims on a concrete input. -/
def drainState : StreamState :=
  { playState := ALState.playing
    queued := [1, 2, 3]
    bufData := fun _ => []
    isFinished := true
    dec := { data := [9, 9], pos := 2 }
    bufferSize := 2
    reads := 5 }

/-- A playing stream with data still available in the decoder and a
finished buffer (id 2) at the front of the queue. -/
def refillState : StreamState :=
  { playState := ALState.playing
    queued := [2, 0]
    bufData := fun _ => []
    isFinished := false
    dec := { data := [5, 6, 7], pos := 0 }
    bufferSize := 2
    reads := 0 }

/-- A stream whose source stalled (hardware state neither playing nor
paused) with one buffer still queued. -/
def stalledState : StreamState :=
  { playState := ALState.stopped
    queued := [3]
    bufData := fun _ => []
    isFinished := false
    dec := { data := [], pos := 0 }
    bufferSize := 4
    reads := 0 }

namespace OpenAL_SoundStream

theorem processStep_playState (s : StreamState) :
    (processStep s).playState = s.playState := by
  unfold processStep
  split
  · rfl
  · split
    · rfl
    · dsimp only
      split <;> rfl

theorem processLoop_playState (n : Nat) (s : StreamState) :
    (processLoop n s).playState = s.playState := by
  induction n generalizing s with
  | zero => rfl
  | succ n ih =>
      rw [processLoop, ih, processStep_playState]

theorem processStep_finished (s : StreamState) (h : s.isFinished = true) :
    processStep s = { s with queued := s.queued.tail } := by
  obtain ⟨ps, q, bd, f, d, bs, rd⟩ := s
  dsimp only at h
  subst h
  cases q with
  | nil => rfl
  | cons b rest => simp [processStep]

theorem processLoop_finished (n : Nat) (s : StreamState) (h : s.isFinished = true) :
    processLoop n s = { s with queued := s.queued.drop n } := by
  induction n generalizing s with
  | zero => rfl
  | succ n ih =>
      rw [processLoop, processStep_finished s h,
        ih { s with queued := s.queued.tail } h, ← List.drop_one, List.drop_drop,
        Nat.add_comm]

theorem process_finished_proj (s : StreamState) (n : Nat) (h : s.isFinished = true) :
    (process s n).2.isFinished = true ∧
    (process s n).2.dec = s.dec ∧
    (process s n).2.reads = s.reads ∧
    (process s n).2.queued = s.queued.drop n := by
  simp only [process, processLoop_finished n s h]
  split
  · split <;> simp [h]
  · simp [h]

end OpenAL_SoundStream

/-- C3: once a streaming sound is in the `Finishing` state, any
sequence of `process()` calls issues no further decoder read (the read
counter and the decoder are untouched), keeps the sound in `Finishing`,
and only ever unqueues finished buffers — the queue after the sequence
is the original queue with the device-reported counts dropped from the
front, so no unqueued buffer is ever re-queued. -/
theorem finishing_never_reads_again :
    ∀ (s : StreamState) (ns : List Nat), s.isFinished = true →
      (OpenAL_SoundStream.processSeq s ns).isFinished = true ∧
      (OpenAL_SoundStream.processSeq s ns).dec = s.dec ∧
      (OpenAL_SoundStream.processSeq s ns).reads = s.reads ∧
      (OpenAL_SoundStream.processSeq s ns).queued = s.queued.drop ns.sum := by
  intro s ns
  induction ns generalizing s with
  | nil =>
      intro h
      exact ⟨h, rfl, rfl, rfl⟩
  | cons n ns ih =>
      intro h
      obtain ⟨h1, h2, h3, h4⟩ := OpenAL_SoundStream.process_finished_proj s n h
      obtain ⟨g1, g2, g3, g4⟩ := ih (OpenAL_SoundStream.process s n).2 h1
      simp only [OpenAL_SoundStream.processSeq]
      refine ⟨g1, g2.trans h2, g3.trans h3, ?_⟩
      rw [g4, h4, List.drop_drop, List.sum_cons]

/-- C3 witness: on a concrete `Finishing` stream with three queued
buffers, two `process()` calls reporting 2 and then 1 finished buffers
leave the decoder and read counter untouched and the queue empty. -/
theorem finishing_never_reads_again_witness :
    drainState.isFinished = true ∧
    (OpenAL_SoundStream.processSeq drainState [2, 1]).isFinished = true ∧
    (OpenAL_SoundStream.processSeq drainState [2, 1]).dec = drainState.dec ∧
    (OpenAL_SoundStream.processSeq drainState [2, 1]).reads = drainState.reads ∧
    (OpenAL_SoundStream.processSeq drainState [2, 1]).queued =
      drainState.queued.drop ([2, 1] : List Nat).sum :=
  ⟨rfl, finishing_never_reads_again drainState [2, 1] rfl⟩

/-- C4: handling one finished buffer while not `Finishing`: the sound
ends up in `Finishing` exactly when the decoder read returned fewer
bytes than the buffer size; a non-empty read loads the bytes into the
buffer and re-queues it at the back; an empty read leaves the buffer
unqueued.  In both cases the decoder is advanced by the read. -/
theorem processStep_refill :
    ∀ (s : StreamState) (bufid : Nat) (rest : List Nat),
      s.isFinished = false → s.queued = bufid :: rest →
      (((OpenAL_SoundStream.processStep s).isFinished = true ↔
          (s.dec.read s.bufferSize).1.length < s.bufferSize) ∧
       ((s.dec.read s.bufferSize).1.length > 0 →
          (OpenAL_SoundStream.processStep s).queued = rest ++ [bufid] ∧
          (OpenAL_SoundStream.processStep s).bufData bufid = (s.dec.read s.bufferSize).1 ∧
          (OpenAL_SoundStream.processStep s).dec = (s.dec.read s.bufferSize).2) ∧
       ((s.dec.read s.bufferSize).1.length = 0 →
          (OpenAL_SoundStream.processStep s).queued = rest ∧
          (OpenAL_SoundStream.processStep s).bufData = s.bufData ∧
          (OpenAL_SoundStream.processStep s).dec = (s.dec.read s.bufferSize).2)) := by
  intro s bufid rest hf hq
  obtain ⟨ps, q, bd, f, d, bs, rd⟩ := s
  dsimp only at hf hq ⊢
  subst hf
  subst hq
  simp only [OpenAL_SoundStream.processStep]
  rw [if_neg (by simp)]
  dsimp only
  split
  · rename_i hgot
    refine ⟨by simp, fun _ => ⟨rfl, by simp, rfl⟩, fun h0 => ?_⟩
    omega
  · rename_i hgot
    refine ⟨by simp, fun hpos => absurd hpos hgot, fun _ => ⟨rfl, rfl, rfl⟩⟩

/-- C4 witness: on a concrete playing stream, buffer 2 finishes, a full
read of 2 bytes is obtained, so the sound stays out of `Finishing`, the
buffer is refilled with those bytes and re-queued at the back, and the
decoder has advanced. -/
theorem processStep_refill_witness :
    ((OpenAL_SoundStream.processStep refillState).isFinished = true ↔
        (refillState.dec.read refillState.bufferSize).1.length < refillState.bufferSize) ∧
    (OpenAL_SoundStream.processStep refillState).queued = [0] ++ [2] ∧
    (OpenAL_SoundStream.processStep refillState).bufData 2 =
      (refillState.dec.read refillState.bufferSize).1 ∧
    (OpenAL_SoundStream.processStep refillState).dec =
      (refillState.dec.read refillState.bufferSize).2 := by
  have h := processStep_refill refillState 2 [0] rfl rfl
  exact ⟨h.1, h.2.1 (by decide)⟩

/-- C5: in every `process()` call whose captured hardware play state is
neither playing nor paused, playback is restarted exactly when at least
one buffer is still queued after the finished buffers were handled;
with no buffer queued the play state is left as it was. -/
theorem process_restarts_on_underrun :
    ∀ (s : StreamState) (n : Nat),
      s.playState ≠ ALState.playing → s.playState ≠ ALState.paused →
      (((OpenAL_SoundStream.processLoop n s).queued ≠ [] →
          (OpenAL_SoundStream.process s n).2.playState = ALState.playing) ∧
       ((OpenAL_SoundStream.processLoop n s).queued = [] →
          (OpenAL_SoundStream.process s n).2.playState = s.playState)) := by
  intro s n h1 h2
  simp only [OpenAL_SoundStream.process]
  rw [if_pos ⟨h1, h2⟩]
  constructor
  · intro hq
    rw [if_pos (List.length_pos.mpr hq)]
  · intro hq
    rw [hq]
    simp [OpenAL_SoundStream.processLoop_playState]

/-- C5 witness: a stopped source with one queued buffer and no finished
buffers is restarted by `process()`. -/
theorem process_restarts_on_underrun_witness :
    (OpenAL_SoundStream.process stalledState 0).2.playState = ALState.playing :=
  (process_restarts_on_underrun stalledState 0 (by decide) (by decide)).1 (by decide)

namespace OpenAL_Output

theorem genSources_length_le (gen : Nat → Option Nat) (i n : Nat) :
    (genSources gen i n).length ≤ n := by
  induction n generalizing i with
  | zero => exact Nat.le_refl 0
  | succ n ih =>
      rw [genSources]
      cases gen i with
      | none => exact Nat.zero_le _
      | some src => simpa using ih (i + 1)

theorem genSources_get? (gen : Nat → Option Nat) (i n j : Nat)
    (h : j < (genSources gen i n).length) :
    (genSources gen i n).get? j = some (gen (i + j)).iget ∧ (gen (i + j)).isSome = true := by
  induction n generalizing i j with
  | zero => simp [genSources] at h
  | succ n ih =>
      rw [genSources] at h ⊢
      cases hg : gen i with
      | none => rw [hg] at h; simp at h
      | some src =>
          rw [hg] at h
          dsimp only at h ⊢
          cases j with
          | zero => simp [hg]
          | succ j =>
              simp only [List.length_cons, Nat.succ_lt_succ_iff] at h
              have := ih (i + 1) j h
              simpa [Nat.add_comm, Nat.add_assoc, Nat.add_left_comm] using this

theorem genSources_stop (gen : Nat → Option Nat) (i n : Nat)
    (h : (genSources gen i n).length < n) :
    gen (i + (genSources gen i n).length) = Option.none := by
  induction n generalizing i with
  | zero => omega
  | succ n ih =>
      rw [genSources] at h ⊢
      cases hg : gen i with
      | none => simpa using hg
      | some src =>
          rw [hg] at h
          dsimp only at h ⊢
          simp only [List.length_cons, Nat.succ_lt_succ_iff] at h
          have := ih (i + 1) h
          simpa [Nat.add_comm, Nat.add_assoc, Nat.add_left_comm] using this

end OpenAL_Output

/-- C7: `init` sizes the pool to `min(maxmono + maxstereo, 256)` and
keeps exactly the sources generated before the first failure: the pool
holds at most that many voices, every kept entry is a successfully
generated source in creation order, generation stopped at the first
failing call, the result is this pool whenever it is non-empty, and
`init` fails hard exactly when no voice at all was created. -/
theorem init_tolerates_failed_creation :
    ∀ (gen : Nat → Option Nat) (maxmono maxstereo : Nat),
      (OpenAL_Output.genSources gen 0 (min (maxmono + maxstereo) 256) ≠ [] →
        OpenAL_Output.init gen maxmono maxstereo =
          Except.ok (OpenAL_Output.genSources gen 0 (min (maxmono + maxstereo) 256))) ∧
      (OpenAL_Output.genSources gen 0 (min (maxmono + maxstereo) 256) = [] →
        OpenAL_Output.init gen maxmono maxstereo =
          Except.error "Could not allocate any sources") ∧
      (OpenAL_Output.genSources gen 0 (min (maxmono + maxstereo) 256)).length ≤
        min (maxmono + maxstereo) 256 ∧
      (∀ j, j < (OpenAL_Output.genSources gen 0 (min (maxmono + maxstereo) 256)).length →
        (OpenAL_Output.genSources gen 0 (min (maxmono + maxstereo) 256)).get? j =
            some (gen j).iget ∧ (gen j).isSome = true) ∧
      ((OpenAL_Output.genSources gen 0 (min (maxmono + maxstereo) 256)).length <
          min (maxmono + maxstereo) 256 →
        gen (OpenAL_Output.genSources gen 0 (min (maxmono + maxstereo) 256)).length =
          Option.none) := by
  intro gen maxmono maxstereo
  refine ⟨?_, ?_, OpenAL_Output.genSources_length_le gen 0 _, ?_, ?_⟩
  · intro h
    simp only [OpenAL_Output.init]
    rw [if_neg (by simpa using h)]
  · intro h
    simp only [OpenAL_Output.init]
    rw [if_pos (by simpa using h)]
  · intro j hj
    simpa using OpenAL_Output.genSources_get? gen 0 _ j hj
  · intro h
    simpa using OpenAL_Output.genSources_stop gen 0 _ h

/-- A generation oracle that succeeds for the first three calls and
fails afterwards. -/
def gen3 : Nat → Option Nat :=
  fun i => if i < 3 then some (100 + i) else Option.none

/-- C7 witness: with a device reporting 2 mono and 2 stereo voices and
source creation failing at the fourth call, `init` keeps exactly the
three voices created first, and the call after them was the failing
one. -/
theorem init_tolerates_failed_creation_witness :
    OpenAL_Output.init gen3 2 2 =
      Except.ok (OpenAL_Output.genSources gen3 0 (min (2 + 2) 256)) ∧
    OpenAL_Output.genSources gen3 0 (min (2 + 2) 256) = [100, 101, 102] ∧
    gen3 (OpenAL_Output.genSources gen3 0 (min (2 + 2) 256)).length = Option.none := by
  have h := init_tolerates_failed_creation gen3 2 2
  exact ⟨h.1 (by decide), by decide, h.2.2.2.2 (by decide)⟩

namespace OpenAL_SoundStream

theorem fillBufs_dec_data (ids : List Nat) (s : StreamState) :
    (fillBufs ids s).dec.data = s.dec.data := by
  induction ids generalizing s with
  | nil => rfl
  | cons i rest ih =>
      rw [fillBufs, ih]
      rfl

theorem fillBufs_pos_le (ids : List Nat) (s : StreamState) :
    s.dec.pos ≤ (fillBufs ids s).dec.pos := by
  induction ids generalizing s with
  | nil => exact Nat.le_refl _
  | cons i rest ih =>
      rw [fillBufs]
      refine Nat.le_trans ?_ (ih _)
      exact Nat.le_add_right _ _

theorem fillBufs_bufferSize (ids : List Nat) (s : StreamState) :
    (fillBufs ids s).bufferSize = s.bufferSize := by
  induction ids generalizing s with
  | nil => rfl
  | cons i rest ih =>
      rw [fillBufs, ih]

theorem fillBufs_bufData_notmem (ids : List Nat) (k : Nat) (s : StreamState)
    (hk : ¬ k ∈ ids) :
    (fillBufs ids s).bufData k = s.bufData k := by
  induction ids generalizing s with
  | nil => rfl
  | cons i rest ih =>
      rw [fillBufs, ih _ (fun hm => hk (List.mem_cons_of_mem i hm))]
      dsimp only
      rw [if_neg (fun he : k = i => hk (he ▸ List.mem_cons_self i rest))]

theorem play_bufData_zero (s : StreamState) :
    (play s).bufData 0 = (s.dec.data.drop s.dec.pos).take s.bufferSize := by
  simp only [play]
  rw [fillBufs, fillBufs_bufData_notmem [1, 2, 3, 4, 5] 0 _ (by decide)]
  simp [Decoder.read]

theorem play_dec_data (s : StreamState) : (play s).dec.data = s.dec.data := by
  simp only [play]
  rw [fillBufs_dec_data]

theorem play_bufferSize (s : StreamState) : (play s).bufferSize = s.bufferSize := by
  simp only [play]
  rw [fillBufs_bufferSize]

end OpenAL_SoundStream

/-- C10: `play()` never rewinds the decoder — the read position only
advances, and the first ring buffer is filled with the bytes at the
decoder's current position, so a second `play()` without an intervening
`stop()` resumes from where decoding left off; only `stop()` resets the
read position to the start of the stream. -/
theorem play_resumes_stop_rewinds :
    ∀ s : StreamState,
      s.dec.pos ≤ (OpenAL_SoundStream.play s).dec.pos ∧
      (OpenAL_SoundStream.play s).dec.data = s.dec.data ∧
      (OpenAL_SoundStream.play s).bufData 0 =
        (s.dec.data.drop s.dec.pos).take s.bufferSize ∧
      (OpenAL_SoundStream.play (OpenAL_SoundStream.play s)).bufData 0 =
        (s.dec.data.drop (OpenAL_SoundStream.play s).dec.pos).take s.bufferSize ∧
      (OpenAL_SoundStream.stop s).dec.pos = 0 ∧
      (OpenAL_SoundStream.stop s).dec.data = s.dec.data := by
  intro s
  refine ⟨?_, OpenAL_SoundStream.play_dec_data s, OpenAL_SoundStream.play_bufData_zero s,
    ?_, rfl, rfl⟩
  · simpa only [OpenAL_SoundStream.play]
      using OpenAL_SoundStream.fillBufs_pos_le [0, 1, 2, 3, 4, 5]
        { s with playState := ALState.stopped, queued := [] }
  · rw [OpenAL_SoundStream.play_bufData_zero (OpenAL_SoundStream.play s),
      OpenAL_SoundStream.play_dec_data s, OpenAL_SoundStream.play_bufferSize s]

end OpenMW
